import Mathlib

/-!
Verification of the vacation-package example: two dispatch strategies
(type-switch free functions and a visitor interface) over a closed set of
four travel-product records, plus a `VacationPackage` aggregator.

Modelling conventions:
* A JavaScript `Date` is its epoch-milliseconds value (`getTime()`), an `Int`.
* Numbers (prices, rates, the possibly-fractional result of `numDays`) are `ℚ`.
* The locale-dependent formatters `formatDate` / `formatDateTime` and the
  number-to-text interpolation of template literals are abstract parameters
  `fmtD fmtDT : Int → String` and `fmtNum : ℚ → String`; both source variants
  share the same helpers, so every statement is quantified over them.
-/

namespace Vacation

/-- A `Date` value, identified with its `getTime()` epoch milliseconds. -/
abbrev Date : Type := Int

/-- `const millisPerDay = 24 * 60 * 60 * 1000`. -/
def millisPerDay : ℚ := 24 * 60 * 60 * 1000

/-- `numDays`: millisecond difference of the two dates divided by
`millisPerDay` (float division, possibly fractional). -/
def numDays (startDate endDate : Date) : ℚ :=
  (((endDate - startDate : Int) : ℚ)) / millisPerDay

/-- The `Flight` record. -/
structure Flight where
  flightNumber : String
  origin : String
  destination : String
  departureTime : Date
  price : ℚ
deriving DecidableEq

/-- The `Hotel` record. -/
structure Hotel where
  id : String
  checkInDate : Date
  checkOutDate : Date
  roomRate : ℚ
deriving DecidableEq

/-- The `Car` record. -/
structure Car where
  vehicleType : String
  pickupDate : Date
  dropOffDate : Date
  dailyRate : ℚ
deriving DecidableEq

/-- The `Activity` record. -/
structure Activity where
  id : String
  startTime : Date
  cost : ℚ
deriving DecidableEq

/-- `type Product = Flight | Hotel | Car | Activity` — the closed union. -/
inductive Product where
  | flight (f : Flight)
  | hotel (h : Hotel)
  | car (c : Car)
  | activity (a : Activity)
deriving DecidableEq

/-- `product instanceof Flight` narrowing: the record when the test succeeds. -/
def asFlight : Product → Option Flight
  | .flight f => some f
  | _ => none

/-- `product instanceof Hotel` narrowing. -/
def asHotel : Product → Option Hotel
  | .hotel h => some h
  | _ => none

/-- `product instanceof Car` narrowing. -/
def asCar : Product → Option Car
  | .car c => some c
  | _ => none

/-- `product instanceof Activity` narrowing. -/
def asActivity : Product → Option Activity
  | .activity a => some a
  | _ => none

/-- The type-switch `calculatePrice` exactly as its `if`/`else if` chain is
written: each `instanceof` test in order, and the implicit `undefined`
(`none`) fall-through when no branch matches. -/
def calculatePriceChain (p : Product) : Option ℚ :=
  match asFlight p with
  | some f => some f.price
  | none =>
    match asHotel p with
    | some h => some (numDays h.checkInDate h.checkOutDate * h.roomRate)
    | none =>
      match asCar p with
      | some c => some (numDays c.pickupDate c.dropOffDate * c.dailyRate)
      | none =>
        match asActivity p with
        | some a => some a.cost
        | none => none

/-- The value the type-switch `calculatePrice` returns on each member of the
closed union (the chain never falls through; see `calculatePriceChain`). -/
def calculatePrice : Product → ℚ
  | .flight f => f.price
  | .hotel h => numDays h.checkInDate h.checkOutDate * h.roomRate
  | .car c => numDays c.pickupDate c.dropOffDate * c.dailyRate
  | .activity a => a.cost

/-- The `Flight` itinerary block of the type-switch `getItinerary`. -/
def flightBlock (fmtDT : Date → String) (fmtNum : ℚ → String)
    (f : Flight) : String :=
  "Flight\n" ++ "------\n" ++
    f.flightNumber ++ ": " ++ f.origin ++ "-" ++ f.destination ++ "\n" ++
    "Dep: " ++ fmtDT f.departureTime ++ "\n" ++
    "Price: $" ++ fmtNum f.price

/-- The `Hotel` itinerary block of the type-switch `getItinerary`. -/
def hotelBlock (fmtD : Date → String) (fmtNum : ℚ → String)
    (h : Hotel) : String :=
  "Hotel\n" ++ "-----\n" ++
    h.id ++ "\n" ++
    "Check in:  " ++ fmtD h.checkInDate ++ "\n" ++
    "Check out: " ++ fmtD h.checkOutDate ++ "\n" ++
    "Room rate: $" ++ fmtNum h.roomRate ++ "/night"

/-- The `Car` itinerary block of the type-switch `getItinerary`. -/
def carBlock (fmtD : Date → String) (fmtNum : ℚ → String)
    (c : Car) : String :=
  "Car\n" ++ "---\n" ++
    "Vehicle type:" ++ c.vehicleType ++ "\n" ++
    "Pick up:  " ++ fmtD c.pickupDate ++ "\n" ++
    "Drop off: " ++ fmtD c.dropOffDate ++ "\n" ++
    "Daily rate: $" ++ fmtNum c.dailyRate

/-- The `Activity` itinerary block of the type-switch `getItinerary`. -/
def activityBlock (fmtDT : Date → String) (fmtNum : ℚ → String)
    (a : Activity) : String :=
  "Activity\n" ++ "--------\n" ++
    a.id ++ "\n" ++
    fmtDT a.startTime ++ "\n" ++
    "Cost: $" ++ fmtNum a.cost

/-- The type-switch `getItinerary` exactly as its `if`/`else if` chain is
written, with the implicit `undefined` (`none`) fall-through. -/
def getItineraryChain (fmtD fmtDT : Date → String) (fmtNum : ℚ → String)
    (p : Product) : Option String :=
  match asFlight p with
  | some f => some (flightBlock fmtDT fmtNum f)
  | none =>
    match asHotel p with
    | some h => some (hotelBlock fmtD fmtNum h)
    | none =>
      match asCar p with
      | some c => some (carBlock fmtD fmtNum c)
      | none =>
        match asActivity p with
        | some a => some (activityBlock fmtDT fmtNum a)
        | none => none

/-- The text the type-switch `getItinerary` returns on each member of the
closed union (the chain never falls through; see `getItineraryChain`). -/
def getItinerary (fmtD fmtDT : Date → String) (fmtNum : ℚ → String) :
    Product → String
  | .flight f => flightBlock fmtDT fmtNum f
  | .hotel h => hotelBlock fmtD fmtNum h
  | .car c => carBlock fmtD fmtNum c
  | .activity a => activityBlock fmtDT fmtNum a

/-- The `ProductVisitor` interface: one method per product kind. A visitor
implementation carries mutable state of type `σ`; each method maps the state
before the call to the state after it. -/
structure ProductVisitor (σ : Type) where
  visitFlight : σ → Flight → σ
  visitHotel : σ → Hotel → σ
  visitCar : σ → Car → σ
  visitActivity : σ → Activity → σ

/-- `product.accept(v)`: each record's `accept` calls back the one visitor
method matching its own kind (double dispatch). -/
def accept {σ : Type} (v : ProductVisitor σ) (p : Product) (s : σ) : σ :=
  match p with
  | .flight f => v.visitFlight s f
  | .hotel h => v.visitHotel s h
  | .car c => v.visitCar s c
  | .activity a => v.visitActivity s a

/-- `PricingVisitor`: state is the running `price` total; each visit method
adds that product's contribution. -/
def PricingVisitor : ProductVisitor ℚ where
  visitFlight s f := s + f.price
  visitHotel s h := s + numDays h.checkInDate h.checkOutDate * h.roomRate
  visitCar s c := s + numDays c.pickupDate c.dropOffDate * c.dailyRate
  visitActivity s a := s + a.cost

/-- `PricingVisitor`'s initial `price` field. -/
def pricingInit : ℚ := 0

/-- `ItineraryVisitor`: state is the running `itinerary` text; each visit
method appends a blank-line separator and that kind's formatted block. -/
def ItineraryVisitor (fmtD fmtDT : Date → String) (fmtNum : ℚ → String) :
    ProductVisitor String where
  visitFlight s f := s ++ ("\n\n" ++ flightBlock fmtDT fmtNum f)
  visitHotel s h := s ++ ("\n\n" ++ hotelBlock fmtD fmtNum h)
  visitCar s c := s ++ ("\n\n" ++ carBlock fmtD fmtNum c)
  visitActivity s a := s ++ ("\n\n" ++ activityBlock fmtDT fmtNum a)

/-- `ItineraryVisitor`'s initial `itinerary` field — also the literal the
type-switch aggregator starts its `reduce` from. -/
def itineraryHeader : String := "Itinerary\n========="

/-- A `VacationPackage` is its ordered `products` sequence. -/
abbrev VacationPackage : Type := List Product

/-- `VacationPackage.add`: `this.products.push(product)`. -/
def add (pkg : VacationPackage) (p : Product) : VacationPackage :=
  pkg ++ [p]

/-- Type-switch variant of `VacationPackage.calculatePrice`:
`reduce((acc, product) => acc + calculatePrice(product), 0)`. -/
def pkgCalculatePrice (pkg : VacationPackage) : ℚ :=
  pkg.foldl (fun accumulator product => accumulator + calculatePrice product) 0

/-- Type-switch variant of `VacationPackage.getItinerary`:
`reduce((acc, product) => acc + '\n\n' + getItinerary(product), header)`. -/
def pkgGetItinerary (fmtD fmtDT : Date → String) (fmtNum : ℚ → String)
    (pkg : VacationPackage) : String :=
  pkg.foldl
    (fun accumulator product =>
      accumulator ++ "\n\n" ++ getItinerary fmtD fmtDT fmtNum product)
    itineraryHeader

/-- Visitor variant of `VacationPackage.calculatePrice`: construct a fresh
`PricingVisitor`, `accept` it on every product in order, read its `price`. -/
def pkgCalculatePriceV (pkg : VacationPackage) : ℚ :=
  pkg.foldl (fun s product => accept PricingVisitor product s) pricingInit

/-- Visitor variant of `VacationPackage.getItinerary`: construct a fresh
`ItineraryVisitor`, `accept` it on every product in order, read its
`itinerary`. -/
def pkgGetItineraryV (fmtD fmtDT : Date → String) (fmtNum : ℚ → String)
    (pkg : VacationPackage) : String :=
  pkg.foldl
    (fun s product => accept (ItineraryVisitor fmtD fmtDT fmtNum) product s)
    itineraryHeader

/-- One call to a visitor method, recorded with the product it received.
Used to observe which methods `accept` invokes. -/
inductive VisitCall where
  | vFlight (f : Flight)
  | vHotel (h : Hotel)
  | vCar (c : Car)
  | vActivity (a : Activity)
deriving DecidableEq

/-- A visitor whose only effect is to log every method call it receives. -/
def loggingVisitor : ProductVisitor (List VisitCall) where
  visitFlight s f := s ++ [.vFlight f]
  visitHotel s h := s ++ [.vHotel h]
  visitCar s c := s ++ [.vCar c]
  visitActivity s a := s ++ [.vActivity a]

/-- The visitor call that matches a product's kind. -/
def callOf : Product → VisitCall
  | .flight f => .vFlight f
  | .hotel h => .vHotel h
  | .car c => .vCar c
  | .activity a => .vActivity a

/-- The concatenation of the per-product itinerary sections, in order:
a blank-line separator and then the product's block, for every product. -/
def itinerarySections (fmtD fmtDT : Date → String) (fmtNum : ℚ → String) :
    List Product → String
  | [] => ""
  | p :: ps =>
    ("\n\n" ++ getItinerary fmtD fmtDT fmtNum p)
      ++ itinerarySections fmtD fmtDT fmtNum ps

/- The concrete demonstration package from the test section of both
source files. -/

/-- `new Date('2019-12-30')`: epoch milliseconds of 2019-12-30T00:00:00Z. -/
def startDate : Date := 1577664000000

/-- `new Date('2020-01-01')`: epoch milliseconds of 2020-01-01T00:00:00Z. -/
def endDate : Date := 1577836800000

/-- `new Flight('TV 312', 'BOS', 'JFK', startDate, 300)`. -/
def flightTV312 : Flight := ⟨"TV 312", "BOS", "JFK", startDate, 300⟩

/-- `new Flight('TV 313', 'JFK', 'BOS', endDate, 300)`. -/
def flightTV313 : Flight := ⟨"TV 313", "JFK", "BOS", endDate, 300⟩

/-- `new Hotel('Hilton Times Square', startDate, endDate, 400)`. -/
def hotelHilton : Hotel := ⟨"Hilton Times Square", startDate, endDate, 400⟩

/-- `new Car('SUV', startDate, endDate, 150)`. -/
def carSUV : Car := ⟨"SUV", startDate, endDate, 150⟩

/-- `new Activity('Hamilton', startDate, 200)`. -/
def activityHamilton : Activity := ⟨"Hamilton", startDate, 200⟩

/-- The test package: the five products added in source order. -/
def pkg : VacationPackage :=
  add (add (add (add (add [] (.flight flightTV312))
    (.flight flightTV313)) (.hotel hotelHilton)) (.car carSUV))
    (.activity activityHamilton)

/- Helper lemmas shared by the claim theorems. -/

theorem strAppendAssoc (a b c : String) : a ++ b ++ c = a ++ (b ++ c) := by
  apply String.ext
  simp [String.data_append]

theorem accept_PricingVisitor (p : Product) (s : ℚ) :
    accept PricingVisitor p s = s + calculatePrice p := by
  cases p <;> rfl

theorem accept_ItineraryVisitor (fmtD fmtDT : Date → String)
    (fmtNum : ℚ → String) (p : Product) (s : String) :
    accept (ItineraryVisitor fmtD fmtDT fmtNum) p s
      = s ++ ("\n\n" ++ getItinerary fmtD fmtDT fmtNum p) := by
  cases p <;> rfl

theorem foldl_price (ps : List Product) (c : ℚ) :
    ps.foldl (fun accumulator product => accumulator + calculatePrice product) c
      = c + (ps.map calculatePrice).sum := by
  induction ps generalizing c with
  | nil => simp
  | cons p ps ih => simp [List.foldl_cons, ih, add_assoc]

theorem foldl_itinerary (fmtD fmtDT : Date → String) (fmtNum : ℚ → String)
    (ps : List Product) (init : String) :
    ps.foldl
        (fun accumulator product =>
          accumulator ++ "\n\n" ++ getItinerary fmtD fmtDT fmtNum product)
        init
      = init ++ itinerarySections fmtD fmtDT fmtNum ps := by
  induction ps generalizing init with
  | nil => simp [itinerarySections, String.append_empty]
  | cons p ps ih =>
    rw [List.foldl_cons, ih, itinerarySections]
    simp only [strAppendAssoc]

theorem pkgCalculatePriceV_eq (ps : VacationPackage) :
    pkgCalculatePriceV ps = pkgCalculatePrice ps := by
  unfold pkgCalculatePriceV pkgCalculatePrice pricingInit
  congr 1
  funext s p
  exact accept_PricingVisitor p s

theorem pkgGetItineraryV_eq (fmtD fmtDT : Date → String) (fmtNum : ℚ → String)
    (ps : VacationPackage) :
    pkgGetItineraryV fmtD fmtDT fmtNum ps
      = pkgGetItinerary fmtD fmtDT fmtNum ps := by
  unfold pkgGetItineraryV pkgGetItinerary
  congr 1
  funext s p
  rw [accept_ItineraryVisitor, strAppendAssoc]

theorem pkgCalculatePrice_eq_sum (ps : VacationPackage) :
    pkgCalculatePrice ps = (ps.map calculatePrice).sum := by
  rw [pkgCalculatePrice, foldl_price, zero_add]

theorem pkgGetItinerary_eq (fmtD fmtDT : Date → String) (fmtNum : ℚ → String)
    (ps : VacationPackage) :
    pkgGetItinerary fmtD fmtDT fmtNum ps
      = itineraryHeader ++ itinerarySections fmtD fmtDT fmtNum ps := by
  rw [pkgGetItinerary, foldl_itinerary]

theorem itinerarySections_append (fmtD fmtDT : Date → String)
    (fmtNum : ℚ → String) (l1 l2 : List Product) :
    itinerarySections fmtD fmtDT fmtNum (l1 ++ l2)
      = itinerarySections fmtD fmtDT fmtNum l1
          ++ itinerarySections fmtD fmtDT fmtNum l2 := by
  induction l1 with
  | nil => rw [List.nil_append, itinerarySections, String.empty_append]
  | cons p l1 ih =>
    rw [List.cons_append, itinerarySections, itinerarySections, ih]
    simp only [strAppendAssoc]

/-- Claim C1: for every product the fresh `PricingVisitor`'s `price` after
`accept` equals the type-switch `calculatePrice`; the `ItineraryVisitor`
appends the separator followed by exactly the type-switch `getItinerary`
block; consequently both `VacationPackage` variants agree on the total price
and produce byte-identical itinerary text. -/
theorem C1_dispatch_equivalence (fmtD fmtDT : Date → String)
    (fmtNum : ℚ → String) :
    (∀ p : Product, accept PricingVisitor p pricingInit = calculatePrice p)
    ∧ (∀ (p : Product) (s : String),
        accept (ItineraryVisitor fmtD fmtDT fmtNum) p s
          = s ++ ("\n\n" ++ getItinerary fmtD fmtDT fmtNum p))
    ∧ (∀ ps : VacationPackage,
        pkgCalculatePriceV ps = pkgCalculatePrice ps
          ∧ pkgGetItineraryV fmtD fmtDT fmtNum ps
              = pkgGetItinerary fmtD fmtDT fmtNum ps) := by
  refine ⟨fun p => ?_, accept_ItineraryVisitor fmtD fmtDT fmtNum,
    fun ps => ⟨pkgCalculatePriceV_eq ps,
      pkgGetItineraryV_eq fmtD fmtDT fmtNum ps⟩⟩
  rw [accept_PricingVisitor, pricingInit, zero_add]

/-- Claim C2: `calculatePrice` returns the flat `price` for a flight,
`numDays * roomRate` for a hotel, `numDays * dailyRate` for a car and the
flat `cost` for an activity. -/
theorem C2_calculatePrice_per_kind :
    (∀ f : Flight, calculatePrice (.flight f) = f.price)
    ∧ (∀ h : Hotel, calculatePrice (.hotel h)
        = numDays h.checkInDate h.checkOutDate * h.roomRate)
    ∧ (∀ c : Car, calculatePrice (.car c)
        = numDays c.pickupDate c.dropOffDate * c.dailyRate)
    ∧ (∀ a : Activity, calculatePrice (.activity a) = a.cost) :=
  ⟨fun _ => rfl, fun _ => rfl, fun _ => rfl, fun _ => rfl⟩

/-- Claim C3: `numDays` is the millisecond difference divided by 86400000
(possibly fractional); it vanishes on equal dates and is antisymmetric. -/
theorem C3_numDays_algebra :
    (∀ a b : Date, numDays a b = ((b - a : Int) : ℚ) / 86400000)
    ∧ (∀ d : Date, numDays d d = 0)
    ∧ (∀ a b : Date, numDays a b = -numDays b a) := by
  refine ⟨fun a b => ?_, fun d => ?_, fun a b => ?_⟩
  · rw [numDays]; norm_num [millisPerDay]
  · simp [numDays]
  · rw [numDays, numDays]; push_cast; ring

/-- Claim C4: both aggregator variants compute the arithmetic sum of the
per-product prices, and the total is invariant under permutation of the
products sequence. -/
theorem C4_total_is_sum (ps qs : VacationPackage) (hperm : ps.Perm qs) :
    pkgCalculatePrice ps = (ps.map calculatePrice).sum
    ∧ pkgCalculatePriceV ps = (ps.map calculatePrice).sum
    ∧ pkgCalculatePrice ps = pkgCalculatePrice qs
    ∧ pkgCalculatePriceV ps = pkgCalculatePriceV qs := by
  have hsum := (hperm.map calculatePrice).sum_eq
  refine ⟨pkgCalculatePrice_eq_sum ps, ?_, ?_, ?_⟩
  · rw [pkgCalculatePriceV_eq, pkgCalculatePrice_eq_sum]
  · rw [pkgCalculatePrice_eq_sum, pkgCalculatePrice_eq_sum, hsum]
  · rw [pkgCalculatePriceV_eq, pkgCalculatePriceV_eq,
      pkgCalculatePrice_eq_sum, pkgCalculatePrice_eq_sum, hsum]

/-- Witness for C4 at a concrete two-product package and its swap. -/
theorem C4_total_is_sum_witness :
    ([Product.activity ⟨"A", 0, 5⟩, Product.flight ⟨"F", "X", "Y", 0, 7⟩]
        : VacationPackage).Perm
      [Product.flight ⟨"F", "X", "Y", 0, 7⟩, Product.activity ⟨"A", 0, 5⟩]
    ∧ pkgCalculatePrice
        [Product.activity ⟨"A", 0, 5⟩, Product.flight ⟨"F", "X", "Y", 0, 7⟩]
      = pkgCalculatePrice
        [Product.flight ⟨"F", "X", "Y", 0, 7⟩,
          Product.activity ⟨"A", 0, 5⟩] :=
  ⟨List.Perm.swap _ _ _,
    (C4_total_is_sum _ _ (List.Perm.swap _ _ _)).2.2.1⟩

/-- Claim C5: in both variants, the aggregator's itinerary is exactly the
header followed by, for each product in insertion order, the two-character
blank-line separator and that product's block, and nothing else. -/
theorem C5_itinerary_layout (fmtD fmtDT : Date → String) (fmtNum : ℚ → String)
    (ps : VacationPackage) :
    pkgGetItinerary fmtD fmtDT fmtNum ps
      = itineraryHeader ++ itinerarySections fmtD fmtDT fmtNum ps
    ∧ pkgGetItineraryV fmtD fmtDT fmtNum ps
      = itineraryHeader ++ itinerarySections fmtD fmtDT fmtNum ps
    ∧ itineraryHeader = "Itinerary\n=========" := by
  refine ⟨pkgGetItinerary_eq fmtD fmtDT fmtNum ps, ?_, rfl⟩
  rw [pkgGetItineraryV_eq, pkgGetItinerary_eq]

/-- Counterexample to Claim C6 as stated: the demonstration package's total
price is not 2100 — the spec's own formula 300+300+2·400+2·150+200
evaluates to 1900, which is what the code returns. -/
theorem C6_price_not_2100 : pkgCalculatePrice pkg ≠ 2100 := by
  norm_num [pkg, add, pkgCalculatePrice, List.foldl, calculatePrice,
    flightTV312, flightTV313, hotelHilton, carSUV, activityHamilton,
    numDays, millisPerDay, startDate, endDate]

/-- Claim C6 (amended): the demonstration package's total price is exactly
1900 = 300+300+2·400+2·150+200 in both variants, and its itinerary is the
header followed by the five product sections in insertion order, each
being the layout block of its kind. -/
theorem C6_end_to_end (fmtD fmtDT : Date → String) (fmtNum : ℚ → String) :
    pkgCalculatePrice pkg = 1900
    ∧ pkgCalculatePriceV pkg = 1900
    ∧ (1900 : ℚ) = 300 + 300 + 2 * 400 + 2 * 150 + 200
    ∧ pkgGetItinerary fmtD fmtDT fmtNum pkg
        = itineraryHeader
          ++ "\n\n" ++ flightBlock fmtDT fmtNum flightTV312
          ++ "\n\n" ++ flightBlock fmtDT fmtNum flightTV313
          ++ "\n\n" ++ hotelBlock fmtD fmtNum hotelHilton
          ++ "\n\n" ++ carBlock fmtD fmtNum carSUV
          ++ "\n\n" ++ activityBlock fmtDT fmtNum activityHamilton
    ∧ pkgGetItineraryV fmtD fmtDT fmtNum pkg
        = pkgGetItinerary fmtD fmtDT fmtNum pkg := by
  have hprice : pkgCalculatePrice pkg = 1900 := by
    norm_num [pkg, add, pkgCalculatePrice, List.foldl, calculatePrice,
      flightTV312, flightTV313, hotelHilton, carSUV, activityHamilton,
      numDays, millisPerDay, startDate, endDate]
  refine ⟨hprice, ?_, by norm_num, rfl, pkgGetItineraryV_eq _ _ _ _⟩
  rw [pkgCalculatePriceV_eq, hprice]

/-- Claim C7: `accept` performs double dispatch — for every visitor it calls
exactly the method matching the product's kind, as the logging visitor's
single-entry call log shows. -/
theorem C7_double_dispatch :
    (∀ (σ : Type) (v : ProductVisitor σ) (s : σ),
        (∀ f, accept v (.flight f) s = v.visitFlight s f)
        ∧ (∀ h, accept v (.hotel h) s = v.visitHotel s h)
        ∧ (∀ c, accept v (.car c) s = v.visitCar s c)
        ∧ (∀ a, accept v (.activity a) s = v.visitActivity s a))
    ∧ (∀ (p : Product) (log : List VisitCall),
        accept loggingVisitor p log = log ++ [callOf p]) := by
  refine ⟨fun σ v s =>
    ⟨fun _ => rfl, fun _ => rfl, fun _ => rfl, fun _ => rfl⟩,
    fun p log => ?_⟩
  cases p <;> rfl

/-- Claim C8: on the closed four-kind union the `if`/`else if` chains of the
type-switch `calculatePrice` and `getItinerary` always take one of the four
branches; the implicit undefined fall-through is unreachable. -/
theorem C8_exhaustive_dispatch (fmtD fmtDT : Date → String)
    (fmtNum : ℚ → String) (p : Product) :
    calculatePriceChain p = some (calculatePrice p)
    ∧ getItineraryChain fmtD fmtDT fmtNum p
        = some (getItinerary fmtD fmtDT fmtNum p)
    ∧ (calculatePriceChain p).isSome = true
    ∧ (getItineraryChain fmtD fmtDT fmtNum p).isSome = true := by
  cases p <;> exact ⟨rfl, rfl, rfl, rfl⟩

/-- Claim C9: `add` is a pure append — the previous products and their order
are untouched and the new product is last — and the two observers depend on
the products sequence alone, each call starting from the fresh initial
accumulator, as the incremental equations show. -/
theorem C9_add_is_append (fmtD fmtDT : Date → String) (fmtNum : ℚ → String)
    (ps : VacationPackage) (p : Product) :
    add ps p = ps ++ [p]
    ∧ (add ps p).take ps.length = ps
    ∧ (add ps p).getLast? = some p
    ∧ pkgCalculatePrice (add ps p) = pkgCalculatePrice ps + calculatePrice p
    ∧ pkgGetItinerary fmtD fmtDT fmtNum (add ps p)
        = pkgGetItinerary fmtD fmtDT fmtNum ps
            ++ "\n\n" ++ getItinerary fmtD fmtDT fmtNum p
    ∧ pkgCalculatePriceV (add ps p) = pkgCalculatePriceV ps + calculatePrice p
    ∧ pkgGetItineraryV fmtD fmtDT fmtNum (add ps p)
        = pkgGetItineraryV fmtD fmtDT fmtNum ps
            ++ "\n\n" ++ getItinerary fmtD fmtDT fmtNum p := by
  have hpr : pkgCalculatePrice (add ps p)
      = pkgCalculatePrice ps + calculatePrice p := by
    rw [add, pkgCalculatePrice_eq_sum, pkgCalculatePrice_eq_sum,
      List.map_append, List.sum_append]
    simp
  have hit : pkgGetItinerary fmtD fmtDT fmtNum (add ps p)
      = pkgGetItinerary fmtD fmtDT fmtNum ps
          ++ "\n\n" ++ getItinerary fmtD fmtDT fmtNum p := by
    rw [add, pkgGetItinerary_eq, pkgGetItinerary_eq, itinerarySections_append]
    rw [itinerarySections, itinerarySections, String.append_empty]
    simp only [strAppendAssoc]
  refine ⟨rfl, List.take_left ps [p], by simp [add, List.getLast?_append],
    hpr, hit, ?_, ?_⟩
  · rw [pkgCalculatePriceV_eq, pkgCalculatePriceV_eq, hpr]
  · rw [pkgGetItineraryV_eq, pkgGetItineraryV_eq, hit]

/-- Claim C10: the empty package has total price 0 and itinerary equal to
the bare header, in both dispatch variants. -/
theorem C10_empty_package (fmtD fmtDT : Date → String) (fmtNum : ℚ → String) :
    pkgCalculatePrice ([] : VacationPackage) = 0
    ∧ pkgGetItinerary fmtD fmtDT fmtNum [] = "Itinerary\n========="
    ∧ pkgCalculatePriceV ([] : VacationPackage) = 0
    ∧ pkgGetItineraryV fmtD fmtDT fmtNum [] = "Itinerary\n=========" :=
  ⟨rfl, rfl, rfl, rfl⟩

end Vacation
